import Mathlib

/-!
Shallow embedding of the wizard-wizard character-creation engine
(`src/wizard_agent/tools/character_sheet.py`, `src/wizard_agent/models/character_sheet.py`,
`src/wizard_agent/tools/spells.py`, `races.py`, `backgrounds.py`,
`src/spell_agent/tools/shared.py`).

Python mutators load the sheet from session state, mutate a fresh copy and persist it
with `_save_sheet` only on success; they are embedded as pure functions
`args → CharacterSheet → ToolResponse T × CharacterSheet` whose second component is the
sheet persisted after the call (the input sheet when no save happens).
Python string truthiness (`not sheet.name` is true for both None and "") is embedded
by `isBlank`.  Python floor division `//` is embedded by `Int.fdiv`.
`list(set(a + b))` (deduplicating merge, set order unspecified) is embedded as the
order-normalised `(a ++ b).dedup`.
The fuzzy spell resolver (`find_spell_by_name`, an external collaborator built on
rapidfuzz) is passed to `add_cantrip` / `add_spellbook_spell` as the envelope it
produced; a "success" envelope with no attached spell would make the Python code raise
KeyError and is mapped to the same verbatim propagation branch as a failure (the real
resolver always attaches the spell on success).
-/

namespace WizardWizard

inductive Status where
  | success
  | failure
deriving DecidableEq, Repr

/-- Uniform tool envelope from `src/spell_agent/tools/shared.py` (`ToolResponse`):
`status` plus optional `message` and `result` keys. -/
structure ToolResponse (T : Type) where
  status : Status
  message : Option String := none
  result : Option T := none
deriving DecidableEq, Repr

inductive Ability where
  | strength
  | dexterity
  | constitution
  | intelligence
  | wisdom
  | charisma
deriving DecidableEq, Repr

def Ability.key : Ability → String
  | .strength => "strength"
  | .dexterity => "dexterity"
  | .constitution => "constitution"
  | .intelligence => "intelligence"
  | .wisdom => "wisdom"
  | .charisma => "charisma"

/-- Result of Python `ability.capitalize()` on the six fixed ability names. -/
def Ability.cap : Ability → String
  | .strength => "Strength"
  | .dexterity => "Dexterity"
  | .constitution => "Constitution"
  | .intelligence => "Intelligence"
  | .wisdom => "Wisdom"
  | .charisma => "Charisma"

def abilityList : List Ability :=
  [.strength, .dexterity, .constitution, .intelligence, .wisdom, .charisma]

/-- Embeds `AbilityScores` from `models/character_sheet.py`: six ints, default 10. -/
structure AbilityScores where
  strength : Int := 10
  dexterity : Int := 10
  constitution : Int := 10
  intelligence : Int := 10
  wisdom : Int := 10
  charisma : Int := 10
deriving DecidableEq, Repr

/-- Embeds `getattr(self, ability.lower())` on the six fixed ability names. -/
def AbilityScores.get (a : AbilityScores) : Ability → Int
  | .strength => a.strength
  | .dexterity => a.dexterity
  | .constitution => a.constitution
  | .intelligence => a.intelligence
  | .wisdom => a.wisdom
  | .charisma => a.charisma

/-- Embeds `AbilityScores.get_modifier`: `(score - 10) // 2` (Python floor division). -/
def AbilityScores.get_modifier (a : AbilityScores) (ability : Ability) : Int :=
  (a.get ability - 10).fdiv 2

/-- Python dict `.get(key, 0)` over a string-keyed integer dict. -/
def dictGet (d : List (String × Int)) (k : String) : Int :=
  match d.find? (fun p => p.1 == k) with
  | some p => p.2
  | none => 0

/-- Embeds `CharacterSheet` from `models/character_sheet.py`, with the pydantic defaults. -/
structure CharacterSheet where
  completed_steps : List String := []
  name : Option String := none
  race : Option String := none
  size : Option String := none
  speed : Int := 30
  darkvision : Option Int := none
  racial_traits : List String := []
  ability_scores : AbilityScores := {}
  background_ability_bonuses : List (String × Int) := []
  character_class : Option String := none
  level : Int := 1
  hit_die : Option String := none
  max_hp : Option Int := none
  saving_throw_proficiencies : List String := []
  skill_proficiencies : List String := []
  weapon_proficiencies : List String := []
  armor_proficiencies : List String := []
  tool_proficiencies : List String := []
  languages : List String := ["Common"]
  background : Option String := none
  background_feature : Option String := none
  origin_feat : Option String := none
  spellcasting_ability : Option String := none
  spell_save_dc : Option Int := none
  spell_attack_bonus : Option Int := none
  spell_slots : List (Int × Int) := []
  cantrips_known : List String := []
  spellbook : List String := []
  prepared_spells : List String := []
  max_prepared_spells : Option Int := none
  proficiency_bonus : Int := 2
  armor_class : Option Int := none
  initiative : Option Int := none
  passive_perception : Option Int := none
deriving DecidableEq, Repr

/-- One entry of the `total_ability_scores` computed dict: base + background bonus. -/
def CharacterSheet.total_score (sheet : CharacterSheet) (ability : Ability) : Int :=
  sheet.ability_scores.get ability + dictGet sheet.background_ability_bonuses ability.key

/-- Embeds `CharacterSheet.get_total_modifier`: `(total - 10) // 2` on the total score. -/
def CharacterSheet.get_total_modifier (sheet : CharacterSheet) (ability : Ability) : Int :=
  (sheet.total_score ability - 10).fdiv 2

/-- Python truthiness test used as `not sheet.name`: true for None and "". -/
def isBlank : Option String → Bool
  | none => true
  | some s => s == ""

/-- A fresh sheet, as `_get_sheet` creates it when the session holds none. -/
def emptySheet : CharacterSheet := {}

/-- Embeds `list(set(a + b))`: deduplicating merge of two skill lists (set order
unspecified in Python; normalised here to first occurrences). -/
def mergeUnique (a b : List String) : List String :=
  (a ++ b).dedup

/-- Embeds `set_character_name` from `tools/character_sheet.py`: always succeeds. -/
def set_character_name (name : String) (sheet : CharacterSheet) :
    ToolResponse String × CharacterSheet :=
  let sheet2 := { sheet with name := some name }
  ({ status := .success,
     result := some ("Character name set to \x27" ++ name ++ "\x27") }, sheet2)

/-- Embeds `set_race`: writes race, size, speed, darkvision and racial traits with no
validation of any argument, then persists; always succeeds. -/
def set_race (race_name : String) (size : String) (speed : Int)
    (darkvision : Option Int) (racial_traits : List String)
    (sheet : CharacterSheet) : ToolResponse String × CharacterSheet :=
  let sheet2 := { sheet with
    race := some race_name
    size := some size
    speed := speed
    darkvision := darkvision
    racial_traits := racial_traits }
  ({ status := .success,
     result := some ("Race set to \x27" ++ race_name ++ "\x27 (" ++ size ++ ", "
       ++ toString speed ++ "ft speed)") }, sheet2)

/-- Embeds `set_ability_scores`: writes the six base scores; always succeeds. -/
def set_ability_scores (strength dexterity constitution intelligence wisdom charisma : Int)
    (sheet : CharacterSheet) : ToolResponse String × CharacterSheet :=
  let sheet2 := { sheet with
    ability_scores := { strength := strength, dexterity := dexterity,
                        constitution := constitution, intelligence := intelligence,
                        wisdom := wisdom, charisma := charisma } }
  ({ status := .success,
     result := some ("Ability scores set: STR " ++ toString strength ++ ", DEX "
       ++ toString dexterity ++ ", CON " ++ toString constitution ++ ", INT "
       ++ toString intelligence ++ ", WIS " ++ toString wisdom ++ ", CHA "
       ++ toString charisma) }, sheet2)

def valid_wizard_skills : List String :=
  ["Arcana", "History", "Insight", "Investigation", "Medicine", "Religion"]

/-- Embeds `set_class_wizard`: rejects the first skill outside the six-skill wizard list,
then rejects a skill list whose length is not 2; on success writes the class block
and `max_hp = max(1, 6 + CON modifier)` from the total constitution score. -/
def set_class_wizard (skill_proficiencies : List String) (sheet : CharacterSheet) :
    ToolResponse String × CharacterSheet :=
  match skill_proficiencies.find? (fun skill => !(valid_wizard_skills.contains skill)) with
  | some skill =>
    ({ status := .failure,
       message := some ("\x27" ++ skill ++ "\x27 is not a valid wizard skill. Choose from: "
         ++ String.intercalate ", " valid_wizard_skills) }, sheet)
  | none =>
    if skill_proficiencies.length ≠ 2 then
      ({ status := .failure,
         message := some "Wizard must choose exactly 2 skill proficiencies" }, sheet)
    else
      let con_mod := sheet.get_total_modifier .constitution
      let hp := max 1 (6 + con_mod)
      let sheet2 := { sheet with
        character_class := some "Wizard"
        level := 1
        hit_die := some "d6"
        saving_throw_proficiencies := ["Intelligence", "Wisdom"]
        weapon_proficiencies :=
          ["Daggers", "Darts", "Slings", "Quarterstaffs", "Light crossbows"]
        armor_proficiencies := []
        skill_proficiencies := mergeUnique sheet.skill_proficiencies skill_proficiencies
        max_hp := some hp }
      ({ status := .success,
         result := some ("Class set to Wizard. HP: " ++ toString hp ++ ", Skills: "
           ++ String.intercalate ", " skill_proficiencies) }, sheet2)

/-- Embeds `set_background`: writes background, origin feat and ability-bonus map, merges
skills, appends the tool proficiency when non-empty and new; always succeeds. -/
def set_background (background_name : String) (skill_proficiencies : List String)
    (tool_proficiency : String) (origin_feat : String)
    (ability_bonuses : List (String × Int)) (sheet : CharacterSheet) :
    ToolResponse String × CharacterSheet :=
  let sheet2 := { sheet with
    background := some background_name
    origin_feat := some origin_feat
    background_ability_bonuses := ability_bonuses
    skill_proficiencies := mergeUnique sheet.skill_proficiencies skill_proficiencies
    tool_proficiencies :=
      if tool_proficiency ≠ "" ∧ ¬ sheet.tool_proficiencies.contains tool_proficiency then
        sheet.tool_proficiencies ++ [tool_proficiency]
      else
        sheet.tool_proficiencies }
  ({ status := .success,
     result := some ("Background set to \x27" ++ background_name ++ "\x27 with feat \x27"
       ++ origin_feat ++ "\x27") }, sheet2)

/-- Embeds `configure_spellcasting`: fails when the class is not Wizard; otherwise writes
the spellcasting block computed from the total intelligence score. -/
def configure_spellcasting (sheet : CharacterSheet) :
    ToolResponse String × CharacterSheet :=
  if sheet.character_class ≠ some "Wizard" then
    ({ status := .failure,
       message := some "Character must be a Wizard to configure spellcasting" }, sheet)
  else
    let int_mod := sheet.get_total_modifier .intelligence
    let dc := 8 + sheet.proficiency_bonus + int_mod
    let atk := sheet.proficiency_bonus + int_mod
    let maxPrep := max 1 (int_mod + sheet.level)
    let sheet2 := { sheet with
      spellcasting_ability := some "Intelligence"
      spell_slots := [(1, 2)]
      spell_save_dc := some dc
      spell_attack_bonus := some atk
      max_prepared_spells := some maxPrep }
    ({ status := .success,
       result := some ("Spellcasting configured: DC " ++ toString dc ++ ", Attack +"
         ++ toString atk ++ ", Max prepared: " ++ toString maxPrep) }, sheet2)

/-- Spell record from `tools/spells.py` (the fields the embedded code reads). -/
structure Spell where
  name : String
  level : Int
  school : String
  classes : List String
  concentration : Bool := false
  ritual : Bool := false
deriving DecidableEq, Repr

/-- Embeds `add_cantrip`: given the envelope the external `find_spell_by_name` resolver
produced for the requested name: propagates a resolver failure verbatim, rejects a
non-cantrip or non-wizard spell, a fourth cantrip and a duplicate; appends on success. -/
def add_cantrip (spell_result : ToolResponse Spell) (sheet : CharacterSheet) :
    ToolResponse String × CharacterSheet :=
  match spell_result.status, spell_result.result with
  | .failure, _ =>
    ({ status := .failure, message := spell_result.message }, sheet)
  | .success, none =>
    ({ status := .failure, message := spell_result.message }, sheet)
  | .success, some spell =>
    if spell.level ≠ 0 then
      ({ status := .failure,
         message := some ("\x27" ++ spell.name ++ "\x27 is not a cantrip (level "
           ++ toString spell.level ++ ")") }, sheet)
    else if ¬ spell.classes.contains "wizard" then
      ({ status := .failure,
         message := some ("\x27" ++ spell.name ++ "\x27 is not a wizard spell") }, sheet)
    else if sheet.cantrips_known.length ≥ 3 then
      ({ status := .failure,
         message := some "Cannot add more than 3 cantrips at level 1" }, sheet)
    else if sheet.cantrips_known.contains spell.name then
      ({ status := .failure,
         message := some ("\x27" ++ spell.name ++ "\x27 is already known") }, sheet)
    else
      let sheet2 := { sheet with cantrips_known := sheet.cantrips_known ++ [spell.name] }
      ({ status := .success,
         result := some ("Added cantrip \x27" ++ spell.name ++ "\x27 ("
           ++ toString sheet2.cantrips_known.length ++ "/3)") }, sheet2)

/-- Embeds `add_spellbook_spell`: given the resolver envelope for the requested name:
rejects a non-level-1 or non-wizard spell, a seventh spell and a duplicate. -/
def add_spellbook_spell (spell_result : ToolResponse Spell) (sheet : CharacterSheet) :
    ToolResponse String × CharacterSheet :=
  match spell_result.status, spell_result.result with
  | .failure, _ =>
    ({ status := .failure, message := spell_result.message }, sheet)
  | .success, none =>
    ({ status := .failure, message := spell_result.message }, sheet)
  | .success, some spell =>
    if spell.level ≠ 1 then
      ({ status := .failure,
         message := some ("\x27" ++ spell.name ++ "\x27 is level " ++ toString spell.level
           ++ ", must be level 1") }, sheet)
    else if ¬ spell.classes.contains "wizard" then
      ({ status := .failure,
         message := some ("\x27" ++ spell.name ++ "\x27 is not a wizard spell") }, sheet)
    else if sheet.spellbook.length ≥ 6 then
      ({ status := .failure,
         message := some "Cannot add more than 6 spells to spellbook at level 1" }, sheet)
    else if sheet.spellbook.contains spell.name then
      ({ status := .failure,
         message := some ("\x27" ++ spell.name ++ "\x27 is already in spellbook") }, sheet)
    else
      let sheet2 := { sheet with spellbook := sheet.spellbook ++ [spell.name] }
      ({ status := .success,
         result := some ("Added \x27" ++ spell.name ++ "\x27 to spellbook ("
           ++ toString sheet2.spellbook.length ++ "/6)") }, sheet2)

/-- Embeds `prepare_spell`: exact (case-sensitive) membership test against the spellbook,
then configured-spellcasting, capacity and duplicate checks; appends on success. -/
def prepare_spell (spell_name : String) (sheet : CharacterSheet) :
    ToolResponse String × CharacterSheet :=
  if ¬ sheet.spellbook.contains spell_name then
    ({ status := .failure,
       message := some ("\x27" ++ spell_name ++ "\x27 is not in your spellbook") }, sheet)
  else
    match sheet.max_prepared_spells with
    | none =>
      ({ status := .failure,
         message := some "Spellcasting has not been configured yet" }, sheet)
    | some maxPrep =>
      if (sheet.prepared_spells.length : Int) ≥ maxPrep then
        ({ status := .failure,
           message := some ("Cannot prepare more than " ++ toString maxPrep ++ " spells") },
         sheet)
      else if sheet.prepared_spells.contains spell_name then
        ({ status := .failure,
           message := some ("\x27" ++ spell_name ++ "\x27 is already prepared") }, sheet)
      else
        let sheet2 := { sheet with prepared_spells := sheet.prepared_spells ++ [spell_name] }
        ({ status := .success,
           result := some ("Prepared \x27" ++ spell_name ++ "\x27 ("
             ++ toString sheet2.prepared_spells.length ++ "/" ++ toString maxPrep ++ ")") },
         sheet2)

/-- Result payload of `compute_derived_stats`. -/
structure DerivedStats where
  armor_class : Option Int
  initiative : Option Int
  passive_perception : Option Int
  max_hp : Option Int
deriving DecidableEq, Repr

/-- Embeds `compute_derived_stats`: recomputes AC, initiative and passive perception from
current totals, and max HP when the class is Wizard; always succeeds. -/
def compute_derived_stats (sheet : CharacterSheet) :
    ToolResponse DerivedStats × CharacterSheet :=
  let dex_mod := sheet.get_total_modifier .dexterity
  let wis_mod := sheet.get_total_modifier .wisdom
  let perception_bonus :=
    if sheet.skill_proficiencies.contains "Perception" then
      wis_mod + sheet.proficiency_bonus
    else
      wis_mod
  let sheet2 := { sheet with
    armor_class := some (10 + dex_mod)
    initiative := some dex_mod
    passive_perception := some (10 + perception_bonus)
    max_hp :=
      if sheet.character_class = some "Wizard" then
        some (max 1 (6 + sheet.get_total_modifier .constitution))
      else
        sheet.max_hp }
  ({ status := .success,
     result := some { armor_class := sheet2.armor_class, initiative := sheet2.initiative,
                      passive_perception := sheet2.passive_perception,
                      max_hp := sheet2.max_hp } }, sheet2)

/-- Result payload of `check_next_step`. -/
structure NextStep where
  next_agent : String
  step_name : String
  reason : String
deriving DecidableEq, Repr

def raceStep : NextStep :=
  { next_agent := "race_agent", step_name := "Name & Race Selection",
    reason := "Character needs a name and race" }

def abilityStep : NextStep :=
  { next_agent := "ability_score_agent", step_name := "Ability Scores",
    reason := "Ability scores haven\x27t been set yet" }

def classStep : NextStep :=
  { next_agent := "class_agent", step_name := "Class Setup",
    reason := "Need to set up the Wizard class and choose skills" }

def backgroundStep : NextStep :=
  { next_agent := "background_agent", step_name := "Background Selection",
    reason := "Need to choose a background" }

def spellcastingStep : NextStep :=
  { next_agent := "spellcasting_agent", step_name := "Spellcasting Setup",
    reason := "Need to configure spellcasting stats" }

def spellbookStep : NextStep :=
  { next_agent := "spellbook_agent", step_name := "Spellbook Selection",
    reason := "Need to choose 6 level-1 spells for the spellbook" }

def cantripStep : NextStep :=
  { next_agent := "cantrip_agent", step_name := "Cantrip Selection",
    reason := "Need to choose 3 cantrips" }

def preparedStep : NextStep :=
  { next_agent := "prepared_spells_agent", step_name := "Prepared Spells",
    reason := "Need to choose which spells to prepare" }

def derivedStep : NextStep :=
  { next_agent := "derived_stats_agent", step_name := "Final Stats Calculation",
    reason := "Need to calculate derived stats (AC, initiative, etc.)" }

def validationStep : NextStep :=
  { next_agent := "validation_agent", step_name := "Final Validation & Summary",
    reason := "All steps complete, ready for final validation" }

/-- The `all(getattr(...) == 10 for ...)` test on the six base scores. -/
def allAbilitiesDefault (sheet : CharacterSheet) : Bool :=
  abilityList.all (fun ability => sheet.ability_scores.get ability == 10)

/-- Embeds `check_next_step`: walks the fixed cascade of conditions and answers with the
first unmet step, reading only the current field values of the sheet. -/
def check_next_step (sheet : CharacterSheet) : ToolResponse NextStep :=
  if isBlank sheet.name || isBlank sheet.race then
    { status := .success, result := some raceStep }
  else if allAbilitiesDefault sheet then
    { status := .success, result := some abilityStep }
  else if isBlank sheet.character_class then
    { status := .success, result := some classStep }
  else if isBlank sheet.background then
    { status := .success, result := some backgroundStep }
  else if isBlank sheet.spellcasting_ability then
    { status := .success, result := some spellcastingStep }
  else if sheet.spellbook.length < 6 then
    { status := .success, result := some spellbookStep }
  else if sheet.cantrips_known.length < 3 then
    { status := .success, result := some cantripStep }
  else if sheet.prepared_spells.isEmpty then
    { status := .success, result := some preparedStep }
  else if sheet.armor_class.isNone then
    { status := .success, result := some derivedStep }
  else
    { status := .success, result := some validationStep }

/-- The sequencer precedence order exactly as the specification states it: an
ordered table of (condition, step) pairs, the first met condition winning. -/
def sequencer_table : List ((CharacterSheet → Bool) × NextStep) :=
  [ (fun sheet => isBlank sheet.name || isBlank sheet.race, raceStep),
    (fun sheet => allAbilitiesDefault sheet, abilityStep),
    (fun sheet => isBlank sheet.character_class, classStep),
    (fun sheet => isBlank sheet.background, backgroundStep),
    (fun sheet => isBlank sheet.spellcasting_ability, spellcastingStep),
    (fun sheet => sheet.spellbook.length < 6, spellbookStep),
    (fun sheet => sheet.cantrips_known.length < 3, cantripStep),
    (fun sheet => sheet.prepared_spells.isEmpty, preparedStep),
    (fun sheet => sheet.armor_class.isNone, derivedStep) ]

/-- Specification-side sequencer: the step of the first row of the precedence
table whose condition holds, else the terminal validation step. -/
def next_step_spec (sheet : CharacterSheet) : NextStep :=
  match sequencer_table.find? (fun row => row.1 sheet) with
  | some row => row.2
  | none => validationStep

/-- One entry of the `errors` list built by `validate_character_sheet`. -/
structure ValError where
  field : String
  message : String
deriving DecidableEq, Repr

/-- Conditional single-element contribution to the error list (a Python
`if cond: errors.append(e)`). -/
def flag (cond : Bool) (e : ValError) : List ValError :=
  if cond then [e] else []

/-- One iteration of the ability-range loop of `validate_character_sheet`: an
error when the total score lies outside [1, 30]. -/
def ability_error (sheet : CharacterSheet) (ability : Ability) : List ValError :=
  flag (decide (sheet.total_score ability < 1) || decide (sheet.total_score ability > 30))
    { field := "ability_scores." ++ ability.key,
      message := ability.cap ++ " score " ++ toString (sheet.total_score ability)
        ++ " is out of range (1-30)" }

/-- The error list of `validate_character_sheet`, appended in source order:
race, class, background, the six ability ranges (the ability loop unrolled in its
fixed order), cantrip count, spellbook count, prepared-spell overflow (only when a
cap is set), then AC and HP presence. -/
def validation_errors (sheet : CharacterSheet) : List ValError :=
  flag (isBlank sheet.race) { field := "race", message := "Race not set" } ++
  flag (isBlank sheet.character_class)
    { field := "character_class", message := "Class not set" } ++
  flag (isBlank sheet.background)
    { field := "background", message := "Background not set" } ++
  ability_error sheet .strength ++ ability_error sheet .dexterity ++
  ability_error sheet .constitution ++ ability_error sheet .intelligence ++
  ability_error sheet .wisdom ++ ability_error sheet .charisma ++
  flag (sheet.cantrips_known.length ≠ 3)
    { field := "cantrips_known",
      message := "Expected 3 cantrips, found " ++ toString sheet.cantrips_known.length } ++
  flag (sheet.spellbook.length ≠ 6)
    { field := "spellbook",
      message := "Expected 6 spells in spellbook, found "
        ++ toString sheet.spellbook.length } ++
  (match sheet.max_prepared_spells with
   | none => []
   | some maxPrep =>
     flag ((sheet.prepared_spells.length : Int) > maxPrep)
       { field := "prepared_spells",
         message := "Too many prepared spells (" ++ toString sheet.prepared_spells.length
           ++ "/" ++ toString maxPrep ++ ")" }) ++
  flag sheet.armor_class.isNone { field := "armor_class", message := "AC not computed" } ++
  flag sheet.max_hp.isNone { field := "max_hp", message := "HP not computed" }

/-- Python `str(value)` on an optional string: "None" for an absent value. -/
def pyStr : Option String → String
  | none => "None"
  | some s => s

/-- The success summary of `validate_character_sheet`. -/
structure Summary where
  name : String
  race : Option String
  class_line : String
  background : Option String
  hp : Option Int
  ac : Option Int
  abilities : List (String × Int)
  cantrips : List String
  spellbook : List String
  prepared_spells : List String
deriving DecidableEq, Repr

/-- Result payload of `validate_character_sheet`: either the collected error list
(with `valid: False`) or the summary (with `valid: True`). -/
inductive ValidateResult where
  | invalid (errors : List ValError) : ValidateResult
  | valid (summary : Summary) : ValidateResult
deriving DecidableEq, Repr

/-- Embeds `validate_character_sheet`: collects every violation in one pass over the
sheet; on any violation answers a failure envelope carrying both a message and the
error list as its result, otherwise a success envelope carrying the summary. -/
def validate_character_sheet (sheet : CharacterSheet) : ToolResponse ValidateResult :=
  let errors := validation_errors sheet
  if errors.isEmpty then
    { status := .success,
      result := some (.valid
        { name := if isBlank sheet.name then "Unnamed Wizard" else pyStr sheet.name,
          race := sheet.race,
          class_line := pyStr sheet.character_class ++ " " ++ toString sheet.level,
          background := sheet.background,
          hp := sheet.max_hp,
          ac := sheet.armor_class,
          abilities := abilityList.map (fun ability =>
            (ability.key, sheet.total_score ability)),
          cantrips := sheet.cantrips_known,
          spellbook := sheet.spellbook,
          prepared_spells := sheet.prepared_spells }) }
  else
    { status := .failure,
      message := some ("Validation failed with " ++ toString errors.length ++ " error(s)"),
      result := some (.invalid errors) }

/-- The `School` literal values of `tools/spells.py`, in declaration order. -/
def schoolValues : List String :=
  ["abjuration", "conjuration", "divination", "enchantment",
   "evocation", "illusion", "necromancy", "transmutation"]

/-- The `Class` literal values of `tools/spells.py`, in declaration order. -/
def classValues : List String :=
  ["bard", "cleric", "druid", "paladin", "ranger", "sorcerer", "warlock", "wizard"]

/-- The body of the `list_spells` filter loop: each passed filter must hold. -/
def spell_keep (_class : Option String) (school : Option String) (max_level : Option Int)
    (is_ritual : Option Bool) (spell : Spell) : Bool :=
  (match _class with
   | some c => spell.classes.contains c
   | none => true) &&
  (match school with
   | some sc => spell.school == sc
   | none => true) &&
  (match max_level with
   | some m => !(spell.level > m)
   | none => true) &&
  (match is_ritual with
   | some r => spell.ritual == r
   | none => true)

/-- The class validation and the filter loop of `list_spells`, after its school check. -/
def list_spells_scan (spells : List Spell) (_class : Option String) (school : Option String)
    (max_level : Option Int) (is_ritual : Option Bool) : ToolResponse (List Spell) :=
  match _class with
  | some c =>
    if ¬ classValues.contains c then
      { status := .failure,
        message := some ("Invalid class \x27" ++ c ++ "\x27. Must be one of: "
          ++ String.intercalate ", " classValues) }
    else
      { status := .success,
        result := some (spells.filter (spell_keep _class school max_level is_ritual)) }
  | none =>
    { status := .success,
      result := some (spells.filter (spell_keep _class school max_level is_ritual)) }

/-- Embeds `list_spells`: eager validation of the school then the class filter against their
literal enumerations, then one conjunctive filtering pass over the spell data. -/
def list_spells (spells : List Spell) (_class : Option String) (school : Option String)
    (max_level : Option Int) (is_ritual : Option Bool) : ToolResponse (List Spell) :=
  match school with
  | some sc =>
    if ¬ schoolValues.contains sc then
      { status := .failure,
        message := some ("Invalid school \x27" ++ sc ++ "\x27. Must be one of: "
          ++ String.intercalate ", " schoolValues) }
    else
      list_spells_scan spells _class school max_level is_ritual
  | none => list_spells_scan spells _class school max_level is_ritual

/-- The `Size` literal values of `tools/races.py`. -/
def sizeValues : List String := ["small", "medium"]

/-- The `Ability` literal values of `tools/races.py`. -/
def abilityValues : List String :=
  ["strength", "dexterity", "constitution", "intelligence", "wisdom", "charisma", "any"]

/-- One `AbilityScore` entry of a race record in `tools/races.py`. -/
structure RaceAbilityScore where
  ability : String
  bonus : Int
  count : Option Int := none
deriving DecidableEq, Repr

/-- Race record from `tools/races.py`. -/
structure Race where
  name : String
  abilityScores : List RaceAbilityScore
  darkvision : Option Int
  size : String
  source : String
deriving DecidableEq, Repr

/-- The body of the `list_races` filter loop. -/
def race_keep (size : Option String) (has_darkvision : Option Bool) (ability : Option String)
    (race : Race) : Bool :=
  (match size with
   | some sz => race.size == sz
   | none => true) &&
  (match has_darkvision with
   | some dv => if dv then !race.darkvision.isNone else race.darkvision.isNone
   | none => true) &&
  (match ability with
   | some ab => (race.abilityScores.map (fun score => score.ability)).contains ab
   | none => true)

/-- The ability validation and the filter loop of `list_races`, after its size check. -/
def list_races_scan (races : List Race) (size : Option String) (has_darkvision : Option Bool)
    (ability : Option String) : ToolResponse (List Race) :=
  match ability with
  | some ab =>
    if ¬ abilityValues.contains ab then
      { status := .failure,
        message := some ("Invalid ability \x27" ++ ab ++ "\x27. Must be one of: "
          ++ String.intercalate ", " abilityValues) }
    else
      { status := .success,
        result := some (races.filter (race_keep size has_darkvision ability)) }
  | none =>
    { status := .success,
      result := some (races.filter (race_keep size has_darkvision ability)) }

/-- Embeds `list_races`: eager validation of the size then the ability filter against their
literal enumerations, then one conjunctive filtering pass over the race data. -/
def list_races (races : List Race) (size : Option String) (has_darkvision : Option Bool)
    (ability : Option String) : ToolResponse (List Race) :=
  match size with
  | some sz =>
    if ¬ sizeValues.contains sz then
      { status := .failure,
        message := some ("Invalid size \x27" ++ sz ++ "\x27. Must be one of: "
          ++ String.intercalate ", " sizeValues) }
    else
      list_races_scan races size has_darkvision ability
  | none => list_races_scan races size has_darkvision ability

/-- Background record from `tools/backgrounds.py`. -/
structure Background where
  name : String
  abilityScores : List String
  originFeat : String
  skillProficiencies : List String
  toolProficiency : String
  equipment : String
deriving DecidableEq, Repr

/-- Embeds `list_backgrounds`: no filter validation at all — every call scans the data and
answers success, the ability filter by literal membership and the skill filter by
case-insensitive membership. -/
def list_backgrounds (backgrounds : List Background) (ability : Option String)
    (skill : Option String) : ToolResponse (List Background) :=
  { status := .success,
    result := some (backgrounds.filter (fun background =>
      (match ability with
       | some ab => background.abilityScores.contains ab
       | none => true) &&
      (match skill with
       | some sk =>
         (background.skillProficiencies.map (fun s => s.toLower)).contains sk.toLower
       | none => true))) }

/-- One public character-sheet mutator call, with its typed arguments (the spell
mutators carry the envelope the external resolver produced for their name). -/
inductive MutCall where
  | nameCall (name : String) : MutCall
  | raceCall (race_name size : String) (speed : Int) (darkvision : Option Int)
      (racial_traits : List String) : MutCall
  | abilitiesCall (strength dexterity constitution intelligence wisdom charisma : Int) :
      MutCall
  | classCall (skill_proficiencies : List String) : MutCall
  | backgroundCall (background_name : String) (skill_proficiencies : List String)
      (tool_proficiency : String) (origin_feat : String)
      (ability_bonuses : List (String × Int)) : MutCall
  | spellcastingCall : MutCall
  | cantripCall (spell_result : ToolResponse Spell) : MutCall
  | spellbookCall (spell_result : ToolResponse Spell) : MutCall
  | prepareCall (spell_name : String) : MutCall
  | derivedCall : MutCall
deriving DecidableEq

/-- The sheet persisted after running one mutator call on a sheet. -/
def applyCall (call : MutCall) (sheet : CharacterSheet) : CharacterSheet :=
  match call with
  | .nameCall n => (set_character_name n sheet).2
  | .raceCall rn sz sp dv tr => (set_race rn sz sp dv tr sheet).2
  | .abilitiesCall a b c d e f => (set_ability_scores a b c d e f sheet).2
  | .classCall skills => (set_class_wizard skills sheet).2
  | .backgroundCall bg skills tool feat bonuses =>
    (set_background bg skills tool feat bonuses sheet).2
  | .spellcastingCall => (configure_spellcasting sheet).2
  | .cantripCall res => (add_cantrip res sheet).2
  | .spellbookCall res => (add_spellbook_spell res sheet).2
  | .prepareCall n => (prepare_spell n sheet).2
  | .derivedCall => (compute_derived_stats sheet).2

/-- A call whose size argument, when it has one, lies in the size enumeration. -/
def sizeGuarded : MutCall → Prop
  | .raceCall _ sz _ _ _ => sz ∈ sizeValues
  | _ => True

instance : DecidablePred sizeGuarded := by
  intro call
  cases call <;> simp [sizeGuarded] <;> infer_instance

/-- The size invariant the specification asserts of every sheet. -/
def sizeOK (sheet : CharacterSheet) : Prop :=
  sheet.size = none ∨ sheet.size = some "small" ∨ sheet.size = some "medium"

instance (sheet : CharacterSheet) : Decidable (sizeOK sheet) := by
  unfold sizeOK
  infer_instance

/-- C1: for every character-sheet mutator (set_class_wizard, set_background,
configure_spellcasting, add_cantrip, add_spellbook_spell, prepare_spell,
set_ability_scores, set_race, set_character_name), every starting sheet and all
arguments, a call that answers status failure persists a sheet identical to the
one before the call: every validation check precedes every field write. -/
theorem C1_failure_leaves_sheet_unchanged :
    (∀ n s, (set_character_name n s).1.status = .failure → (set_character_name n s).2 = s) ∧
    (∀ rn sz sp dv tr s,
      (set_race rn sz sp dv tr s).1.status = .failure → (set_race rn sz sp dv tr s).2 = s) ∧
    (∀ a b c d e f s,
      (set_ability_scores a b c d e f s).1.status = .failure →
        (set_ability_scores a b c d e f s).2 = s) ∧
    (∀ skills s,
      (set_class_wizard skills s).1.status = .failure → (set_class_wizard skills s).2 = s) ∧
    (∀ bg skills tool feat bonuses s,
      (set_background bg skills tool feat bonuses s).1.status = .failure →
        (set_background bg skills tool feat bonuses s).2 = s) ∧
    (∀ s, (configure_spellcasting s).1.status = .failure → (configure_spellcasting s).2 = s) ∧
    (∀ res s, (add_cantrip res s).1.status = .failure → (add_cantrip res s).2 = s) ∧
    (∀ res s,
      (add_spellbook_spell res s).1.status = .failure → (add_spellbook_spell res s).2 = s) ∧
    (∀ n s, (prepare_spell n s).1.status = .failure → (prepare_spell n s).2 = s) := by
  refine ⟨?_, ?_, ?_, ?_, ?_, ?_, ?_, ?_, ?_⟩
  · intro n s h
    exact absurd h (by simp [set_character_name])
  · intro rn sz sp dv tr s h
    exact absurd h (by simp [set_race])
  · intro a b c d e f s h
    exact absurd h (by simp [set_ability_scores])
  · intro skills s
    unfold set_class_wizard
    repeat' split
    all_goals intro h
    all_goals first
      | rfl
      | exact absurd h (by simp)
  · intro bg skills tool feat bonuses s h
    exact absurd h (by simp [set_background])
  · intro s
    unfold configure_spellcasting
    repeat' split
    all_goals intro h
    all_goals first
      | rfl
      | exact absurd h (by simp)
  · intro res s
    unfold add_cantrip
    repeat' split
    all_goals intro h
    all_goals first
      | rfl
      | exact absurd h (by simp)
  · intro res s
    unfold add_spellbook_spell
    repeat' split
    all_goals intro h
    all_goals first
      | rfl
      | exact absurd h (by simp)
  · intro n s
    unfold prepare_spell
    repeat' split
    all_goals intro h
    all_goals first
      | rfl
      | exact absurd h (by simp)

/-- C1 witness: preparing a spell that is in no spellbook fails on the fresh sheet
and the persisted sheet is exactly the fresh sheet. -/
theorem C1_witness : (prepare_spell "Fireball" emptySheet).2 = emptySheet :=
  C1_failure_leaves_sheet_unchanged.2.2.2.2.2.2.2.2 "Fireball" emptySheet (by decide)

/-- The sheet after naming the character Fizban and setting the Gnome race, with
all six base ability scores still at their default of 10. -/
def fizbanSheet : CharacterSheet :=
  (set_race "Gnome" "small" 25 (some 60) ["Gnomish Cunning"]
    (set_character_name "Fizban" emptySheet).2).2

/-- The Fizban sheet after the standard-array ability scores and the Wizard class
with two valid skills, still without a background. -/
def fizbanClassSheet : CharacterSheet :=
  (set_class_wizard ["Arcana", "History"]
    (set_ability_scores 8 14 13 15 12 10 fizbanSheet).2).2

/-- C2: check_next_step is a pure function of the current field values — a sheet
differing only in completed_steps gets the very same answer — and every sheet gets
the first row of the fixed precedence table whose condition is unmet, wrapped in a
success envelope; on the empty sheet that is race_agent, on the named Gnome sheet
with default scores it is ability_score_agent, and after scores 8/14/13/15/12/10
and the Wizard class with two valid skills but no background it is
background_agent. -/
theorem C2_sequencer_stateless_first_unmet :
    (∀ s cs, check_next_step { s with completed_steps := cs } = check_next_step s) ∧
    (∀ s, check_next_step s = { status := .success, result := some (next_step_spec s) }) ∧
    (check_next_step emptySheet).result = some raceStep ∧
    raceStep.next_agent = "race_agent" ∧
    (check_next_step fizbanSheet).result = some abilityStep ∧
    abilityStep.next_agent = "ability_score_agent" ∧
    (check_next_step fizbanClassSheet).result = some backgroundStep ∧
    backgroundStep.next_agent = "background_agent" := by
  refine ⟨?_, ?_, by decide, rfl, by decide, rfl, by decide, rfl⟩
  · intro s cs
    rfl
  · intro s
    unfold check_next_step next_step_spec sequencer_table
    simp only [List.find?]
    cases h1 : isBlank s.name || isBlank s.race <;> simp only [h1]
    · cases h2 : allAbilitiesDefault s <;> simp only [h2]
      · cases h3 : isBlank s.character_class <;> simp only [h3]
        · cases h4 : isBlank s.background <;> simp only [h4]
          · cases h5 : isBlank s.spellcasting_ability <;> simp only [h5]
            · by_cases h6 : s.spellbook.length < 6
              case pos => simp [h1, h2, h3, h4, h5, h6]
              case neg =>
                by_cases h7 : s.cantrips_known.length < 3
                case pos => simp [h1, h2, h3, h4, h5, h6, h7]
                case neg =>
                  cases h8 : s.prepared_spells.isEmpty
                  · cases h9 : s.armor_class.isNone
                    · simp [h1, h2, h3, h4, h5, h6, h7, h8, h9]
                    · simp [h1, h2, h3, h4, h5, h6, h7, h8, h9]
                  · simp [h1, h2, h3, h4, h5, h6, h7, h8]
            · simp [h1, h2, h3, h4, h5]
          · simp [h1, h2, h3, h4]
        · simp [h1, h2, h3]
      · simp [h1, h2]
    · simp [h1]

/-- C3: set_class_wizard succeeds exactly when the skill list has exactly two
entries, each in the fixed six-skill wizard list; on success it writes saving-throw
proficiencies Intelligence and Wisdom and max_hp = max(1, 6 + CON modifier) from
the total constitution score; with base scores 8/14/13/15/12/10 and no bonuses,
choosing Arcana and History yields max_hp 7. -/
theorem C3_set_class_wizard_guard_and_effects :
    (∀ skills s,
      (set_class_wizard skills s).1.status = .success ↔
        skills.length = 2 ∧ ∀ skill ∈ skills, skill ∈ valid_wizard_skills) ∧
    (∀ skills s, (set_class_wizard skills s).1.status = .success →
      (set_class_wizard skills s).2.saving_throw_proficiencies = ["Intelligence", "Wisdom"] ∧
      (set_class_wizard skills s).2.max_hp =
        some (max 1 (6 + s.get_total_modifier .constitution))) ∧
    (set_class_wizard ["Arcana", "History"]
      (set_ability_scores 8 14 13 15 12 10 emptySheet).2).2.max_hp = some 7 := by
  refine ⟨?_, ?_, by decide⟩
  · intro skills s
    unfold set_class_wizard
    cases hf : skills.find? (fun skill => !(valid_wizard_skills.contains skill)) with
    | some skill =>
      have hmem := List.mem_of_find?_eq_some hf
      have hp := List.find?_some hf
      rw [Bool.not_eq_true'] at hp
      constructor
      · intro h
        exact absurd h (by simp)
      · rintro ⟨-, hall⟩
        have helem : List.elem skill valid_wizard_skills = true :=
          List.elem_eq_true_of_mem (hall skill hmem)
        have hfalse : List.elem skill valid_wizard_skills = false := hp
        rw [helem] at hfalse
        exact absurd hfalse (by simp)
    | none =>
      have hall := List.find?_eq_none.mp hf
      by_cases hl : skills.length = 2
      · rw [if_neg (by simp [hl])]
        constructor
        · intro _
          refine ⟨hl, fun skill hs => ?_⟩
          have hx := hall skill hs
          simp only [Bool.not_eq_true] at hx
          rw [Bool.not_eq_false'] at hx
          exact List.mem_of_elem_eq_true hx
        · intro _
          rfl
      · rw [if_pos hl]
        constructor
        · intro h
          exact absurd h (by simp)
        · rintro ⟨h2, -⟩
          exact absurd h2 hl
  · intro skills s
    unfold set_class_wizard
    repeat' split
    all_goals intro h
    all_goals first
      | exact ⟨rfl, rfl⟩
      | exact absurd h (by simp)

/-- C3 witness: on the fresh sheet, choosing Arcana and History succeeds, writes the
Intelligence and Wisdom saving throws and max_hp 7 (total CON 10 there gives 6). -/
theorem C3_witness :
    (set_class_wizard ["Arcana", "History"] emptySheet).2.saving_throw_proficiencies =
      ["Intelligence", "Wisdom"] :=
  (C3_set_class_wizard_guard_and_effects.2.1 ["Arcana", "History"] emptySheet (by decide)).1

/-- C4: configure_spellcasting fails exactly when the class is not Wizard; on a
Wizard sheet it writes spellcasting ability Intelligence, slots at one level-1 pair
of 2, DC = 8 + proficiency + INT modifier, attack = proficiency + INT modifier and
max prepared = max(1, INT modifier + level), all from the total intelligence score;
re-invocation persists the identical sheet; with total INT 15, proficiency 2 and
level 1 the values are DC 12, attack 4 and 3 prepared spells. -/
theorem C4_configure_spellcasting_guard_effects_idempotent :
    (∀ s, (configure_spellcasting s).1.status = .failure ↔
      s.character_class ≠ some "Wizard") ∧
    (∀ s, s.character_class = some "Wizard" →
      (configure_spellcasting s).2.spellcasting_ability = some "Intelligence" ∧
      (configure_spellcasting s).2.spell_slots = [(1, 2)] ∧
      (configure_spellcasting s).2.spell_save_dc =
        some (8 + s.proficiency_bonus + s.get_total_modifier .intelligence) ∧
      (configure_spellcasting s).2.spell_attack_bonus =
        some (s.proficiency_bonus + s.get_total_modifier .intelligence) ∧
      (configure_spellcasting s).2.max_prepared_spells =
        some (max 1 (s.get_total_modifier .intelligence + s.level))) ∧
    (∀ s, (configure_spellcasting (configure_spellcasting s).2).2 =
      (configure_spellcasting s).2) ∧
    ((configure_spellcasting fizbanClassSheet).2.spell_save_dc = some 12 ∧
     (configure_spellcasting fizbanClassSheet).2.spell_attack_bonus = some 4 ∧
     (configure_spellcasting fizbanClassSheet).2.max_prepared_spells = some 3) := by
  refine ⟨?_, ?_, ?_, by decide⟩
  · intro s
    unfold configure_spellcasting
    by_cases h : s.character_class = some "Wizard"
    · rw [if_neg (by simp [h])]
      simp [h]
    · rw [if_pos h]
      simp [h]
  · intro s h
    unfold configure_spellcasting
    rw [if_neg (by simp [h])]
    exact ⟨rfl, rfl, rfl, rfl, rfl⟩
  · intro s
    unfold configure_spellcasting
    by_cases h : s.character_class = some "Wizard"
    · rw [if_neg (by simp [h]), if_neg (by simp [h])]
      rfl
    · rw [if_pos h, if_pos h]

/-- C4 witness: configuring the Fizban Wizard sheet succeeds and a second
invocation recomputes the identical spellcasting block. -/
theorem C4_witness :
    (configure_spellcasting fizbanClassSheet).2.spell_save_dc = some 12 ∧
    (configure_spellcasting fizbanClassSheet).2.spellcasting_ability =
      some "Intelligence" :=
  ⟨C4_configure_spellcasting_guard_effects_idempotent.2.2.2.1,
   (C4_configure_spellcasting_guard_effects_idempotent.2.1 fizbanClassSheet (by decide)).1⟩

/-- Scanning the error list for a field: `flag` contributes its entry exactly when
its condition holds. -/
lemma any_flag {c : Bool} {e : ValError} {p : ValError → Bool} :
    (flag c e).any p = (c && p e) := by
  cases c <;> simp [flag]

/-- C5: validate_character_sheet is a total function that reports every violation
of one pass at once rather than stopping at the first: for every sheet, each of the
nine checked fields appears in the error list exactly when its own condition is
violated, independently of all the others, and the envelope is a failure exactly
when the list is non-empty; on the completely empty sheet one call yields a failure
with 7 distinct errors, among them race, class, background and the cantrip count. -/
theorem C5_validator_collects_all_violations :
    (∀ s, (validation_errors s).any (fun e => e.field == "race") = isBlank s.race) ∧
    (∀ s, (validation_errors s).any (fun e => e.field == "character_class") =
      isBlank s.character_class) ∧
    (∀ s, (validation_errors s).any (fun e => e.field == "background") =
      isBlank s.background) ∧
    (∀ s a, (validation_errors s).any (fun e => e.field == ("ability_scores." ++ a.key)) =
      (decide (s.total_score a < 1) || decide (s.total_score a > 30))) ∧
    (∀ s, (validation_errors s).any (fun e => e.field == "cantrips_known") =
      decide (s.cantrips_known.length ≠ 3)) ∧
    (∀ s, (validation_errors s).any (fun e => e.field == "spellbook") =
      decide (s.spellbook.length ≠ 6)) ∧
    (∀ s, (validation_errors s).any (fun e => e.field == "prepared_spells") =
      (match s.max_prepared_spells with
       | none => false
       | some m => decide ((s.prepared_spells.length : Int) > m))) ∧
    (∀ s, (validation_errors s).any (fun e => e.field == "armor_class") =
      s.armor_class.isNone) ∧
    (∀ s, (validation_errors s).any (fun e => e.field == "max_hp") = s.max_hp.isNone) ∧
    (∀ s, (validate_character_sheet s).status = .failure ↔ validation_errors s ≠ []) ∧
    ((validate_character_sheet emptySheet).status = .failure ∧
     (validation_errors emptySheet).length = 7 ∧
     (validation_errors emptySheet).any (fun e => e.field == "race") = true ∧
     (validation_errors emptySheet).any (fun e => e.field == "character_class") = true ∧
     (validation_errors emptySheet).any (fun e => e.field == "background") = true ∧
     (validation_errors emptySheet).any (fun e => e.field == "cantrips_known") = true) := by
  refine ⟨?_, ?_, ?_, ?_, ?_, ?_, ?_, ?_, ?_, ?_, by decide⟩
  · intro s
    cases hm : s.max_prepared_spells <;>
      simp [validation_errors, ability_error, any_flag, List.any_append, hm, Ability.key]
  · intro s
    cases hm : s.max_prepared_spells <;>
      simp [validation_errors, ability_error, any_flag, List.any_append, hm, Ability.key]
  · intro s
    cases hm : s.max_prepared_spells <;>
      simp [validation_errors, ability_error, any_flag, List.any_append, hm, Ability.key]
  · intro s a
    cases hm : s.max_prepared_spells <;> cases a <;>
      simp [validation_errors, ability_error, any_flag, List.any_append, hm, Ability.key]
  · intro s
    cases hm : s.max_prepared_spells <;>
      simp [validation_errors, ability_error, any_flag, List.any_append, hm, Ability.key]
  · intro s
    cases hm : s.max_prepared_spells <;>
      simp [validation_errors, ability_error, any_flag, List.any_append, hm, Ability.key]
  · intro s
    cases hm : s.max_prepared_spells <;>
      simp [validation_errors, ability_error, any_flag, List.any_append, hm, Ability.key]
  · intro s
    cases hm : s.max_prepared_spells <;>
      simp [validation_errors, ability_error, any_flag, List.any_append, hm, Ability.key]
  · intro s
    cases hm : s.max_prepared_spells <;>
      simp [validation_errors, ability_error, any_flag, List.any_append, hm, Ability.key]
  · intro s
    unfold validate_character_sheet
    by_cases he : (validation_errors s).isEmpty
    · rw [if_pos he]
      simp [List.isEmpty_iff.mp he]
    · rw [if_neg he]
      simp [List.isEmpty_iff] at he
      simp [he]

/-- Flooring division by two is the real floor of the halved difference. -/
lemma fdiv_two_floor (t : Int) : (t - 10).fdiv 2 = ⌊((t : ℚ) - 10) / 2⌋ := by
  rw [Int.fdiv_eq_ediv _ (by norm_num)]
  have h := Rat.floor_intCast_div_natCast (t - 10) 2
  have hcast : ((t : ℚ) - 10) = (((t - 10 : Int) : ℤ) : ℚ) := by push_cast; ring
  rw [hcast]
  exact_mod_cast h.symm

/-- The total-score modifier is the real floor of (total − 10) / 2. -/
lemma get_total_modifier_floor (s : CharacterSheet) (a : Ability) :
    s.get_total_modifier a = ⌊((s.total_score a : ℚ) - 10) / 2⌋ :=
  fdiv_two_floor _

/-- C6: for every ability and every sheet, the modifier every derived-stat
computation consumes equals the real floor of (total − 10) / 2, the total being
base plus background bonus; the floor rounds toward negative infinity, so a total
of 7 gives −2; and max_hp, spell DC, spell attack, AC, initiative and passive
perception are all computed from exactly that floor. -/
theorem C6_modifier_is_floor_of_total :
    (∀ (s : CharacterSheet) (a : Ability),
      s.get_total_modifier a = ⌊((s.total_score a : ℚ) - 10) / 2⌋) ∧
    (({ ability_scores := { constitution := 7 } } : CharacterSheet).get_total_modifier
      .constitution = -2) ∧
    (∀ skills s, (set_class_wizard skills s).1.status = .success →
      (set_class_wizard skills s).2.max_hp =
        some (max 1 (6 + ⌊((s.total_score .constitution : ℚ) - 10) / 2⌋))) ∧
    (∀ s, s.character_class = some "Wizard" →
      (configure_spellcasting s).2.spell_save_dc =
        some (8 + s.proficiency_bonus + ⌊((s.total_score .intelligence : ℚ) - 10) / 2⌋) ∧
      (configure_spellcasting s).2.spell_attack_bonus =
        some (s.proficiency_bonus + ⌊((s.total_score .intelligence : ℚ) - 10) / 2⌋)) ∧
    (∀ s, (compute_derived_stats s).2.armor_class =
        some (10 + ⌊((s.total_score .dexterity : ℚ) - 10) / 2⌋) ∧
      (compute_derived_stats s).2.initiative =
        some ⌊((s.total_score .dexterity : ℚ) - 10) / 2⌋ ∧
      (compute_derived_stats s).2.passive_perception =
        some (10 + (if s.skill_proficiencies.contains "Perception" then
            ⌊((s.total_score .wisdom : ℚ) - 10) / 2⌋ + s.proficiency_bonus
          else
            ⌊((s.total_score .wisdom : ℚ) - 10) / 2⌋))) := by
  refine ⟨get_total_modifier_floor, by decide, ?_, ?_, ?_⟩
  · intro skills s
    unfold set_class_wizard
    repeat' split
    all_goals intro h
    all_goals first
      | (simp at h; done)
      | (rw [← get_total_modifier_floor]; try rfl)
  · intro s h
    unfold configure_spellcasting
    rw [if_neg (by simp [h])]
    constructor
    · rw [← get_total_modifier_floor]
      try rfl
    · rw [← get_total_modifier_floor]
      try rfl
  · intro s
    refine ⟨?_, ?_, ?_⟩
    · show some (10 + s.get_total_modifier .dexterity) = _
      rw [← get_total_modifier_floor]
    · show some (s.get_total_modifier .dexterity) = _
      rw [← get_total_modifier_floor]
    · show some (10 + (if s.skill_proficiencies.contains "Perception" then
          s.get_total_modifier .wisdom + s.proficiency_bonus
        else s.get_total_modifier .wisdom)) = _
      rw [← get_total_modifier_floor]

/-- C6 witness: on the concrete Fizban Wizard sheet the class and spellcasting
hypotheses hold, and the floor-based formulas give its persisted stats. -/
theorem C6_witness :
    (set_class_wizard ["Arcana", "History"] emptySheet).2.max_hp =
      some (max 1 (6 + ⌊((emptySheet.total_score .constitution : ℚ) - 10) / 2⌋)) ∧
    (configure_spellcasting fizbanClassSheet).2.spell_save_dc =
      some (8 + fizbanClassSheet.proficiency_bonus +
        ⌊((fizbanClassSheet.total_score .intelligence : ℚ) - 10) / 2⌋) :=
  ⟨C6_modifier_is_floor_of_total.2.2.1 ["Arcana", "History"] emptySheet (by decide),
   (C6_modifier_is_floor_of_total.2.2.2.1 fizbanClassSheet (by decide)).1⟩

/-- The envelope discipline the specification asserts of every operation: a
failure carries a message and no result, a success carries a result. -/
def strict_envelope {T : Type} (r : ToolResponse T) : Prop :=
  (r.status = .failure → r.message.isSome = true ∧ r.result = none) ∧
  (r.status = .success → r.result.isSome = true)

/-- C7 counterexample: the claim that a failure envelope contains no result field
is false at validate_character_sheet on the empty sheet, whose failure envelope
carries the collected error list as its result. -/
theorem C7_counterexample_validate_failure_has_result :
    (validate_character_sheet emptySheet).status = .failure ∧
    (validate_character_sheet emptySheet).result.isSome = true ∧
    ¬ strict_envelope (validate_character_sheet emptySheet) := by
  refine ⟨by decide, by decide, fun h => ?_⟩
  have h2 := (h.1 (by decide)).2
  have h3 : (validate_character_sheet emptySheet).result.isSome = true := by decide
  rw [h2] at h3
  simp at h3

/-- C7 amended: every failure envelope carries a message and every success
envelope carries a result; every operation except validate_character_sheet also
omits the result on failure (the spell mutators do so provided the external
resolver envelope they propagate is itself well-formed); validate_character_sheet
alone attaches the collected error list as the result of its failure envelope. -/
theorem C7_amended_envelope_discipline :
    (∀ n s, strict_envelope (set_character_name n s).1) ∧
    (∀ rn sz sp dv tr s, strict_envelope (set_race rn sz sp dv tr s).1) ∧
    (∀ a b c d e f s, strict_envelope (set_ability_scores a b c d e f s).1) ∧
    (∀ skills s, strict_envelope (set_class_wizard skills s).1) ∧
    (∀ bg skills tool feat bonuses s,
      strict_envelope (set_background bg skills tool feat bonuses s).1) ∧
    (∀ s, strict_envelope (configure_spellcasting s).1) ∧
    (∀ res s, strict_envelope res → strict_envelope (add_cantrip res s).1) ∧
    (∀ res s, strict_envelope res → strict_envelope (add_spellbook_spell res s).1) ∧
    (∀ n s, strict_envelope (prepare_spell n s).1) ∧
    (∀ s, strict_envelope (check_next_step s)) ∧
    (∀ s, strict_envelope (compute_derived_stats s).1) ∧
    (∀ spells c sc ml rit, strict_envelope (list_spells spells c sc ml rit)) ∧
    (∀ races sz hd ab, strict_envelope (list_races races sz hd ab)) ∧
    (∀ bgs ab sk, strict_envelope (list_backgrounds bgs ab sk)) ∧
    (∀ s, ((validate_character_sheet s).status = .failure →
        (validate_character_sheet s).message.isSome = true ∧
        (validate_character_sheet s).result.isSome = true) ∧
      ((validate_character_sheet s).status = .success →
        (validate_character_sheet s).result.isSome = true)) := by
  refine ⟨?_, ?_, ?_, ?_, ?_, ?_, ?_, ?_, ?_, ?_, ?_, ?_, ?_, ?_, ?_⟩
  · intro n s
    exact ⟨fun h => by simp [set_character_name] at h, fun h => by simp [set_character_name]⟩
  · intro rn sz sp dv tr s
    exact ⟨fun h => by simp [set_race] at h, fun h => by simp [set_race]⟩
  · intro a b c d e f s
    exact ⟨fun h => by simp [set_ability_scores] at h, fun h => by simp [set_ability_scores]⟩
  · intro skills s
    unfold set_class_wizard
    repeat' split
    all_goals exact ⟨fun h => by simp_all, fun h => by simp_all⟩
  · intro bg skills tool feat bonuses s
    exact ⟨fun h => by simp [set_background] at h, fun h => by simp [set_background]⟩
  · intro s
    unfold configure_spellcasting
    split
    all_goals exact ⟨fun h => by simp_all, fun h => by simp_all⟩
  · intro res s hres
    unfold add_cantrip
    cases hst : res.status with
    | failure =>
      exact ⟨fun _ => ⟨(hres.1 hst).1, rfl⟩, fun h => by simp at h⟩
    | success =>
      cases hr : res.result with
      | none => exact absurd (hres.2 hst) (by simp [hr])
      | some spell =>
        repeat' split
        all_goals exact ⟨fun h => by simp_all, fun h => by simp_all⟩
  · intro res s hres
    unfold add_spellbook_spell
    cases hst : res.status with
    | failure =>
      exact ⟨fun _ => ⟨(hres.1 hst).1, rfl⟩, fun h => by simp at h⟩
    | success =>
      cases hr : res.result with
      | none => exact absurd (hres.2 hst) (by simp [hr])
      | some spell =>
        repeat' split
        all_goals exact ⟨fun h => by simp_all, fun h => by simp_all⟩
  · intro n s
    unfold prepare_spell
    repeat' split
    all_goals exact ⟨fun h => by simp_all, fun h => by simp_all⟩
  · intro s
    unfold check_next_step
    repeat' split
    all_goals exact ⟨fun h => by simp_all, fun h => by simp_all⟩
  · intro s
    exact ⟨fun h => by simp [compute_derived_stats] at h,
           fun h => by simp [compute_derived_stats]⟩
  · intro spells c sc ml rit
    unfold list_spells list_spells_scan
    repeat' split
    all_goals exact ⟨fun h => by simp_all, fun h => by simp_all⟩
  · intro races sz hd ab
    unfold list_races list_races_scan
    repeat' split
    all_goals exact ⟨fun h => by simp_all, fun h => by simp_all⟩
  · intro bgs ab sk
    exact ⟨fun h => by simp [list_backgrounds] at h, fun h => by simp [list_backgrounds]⟩
  · intro s
    unfold validate_character_sheet
    by_cases he : (validation_errors s).isEmpty
    · rw [if_pos he]
      exact ⟨fun h => by simp at h, fun h => by simp⟩
    · rw [if_neg he]
      exact ⟨fun h => by simp, fun h => by simp at h⟩

/-- C7 witness: a failed resolver envelope with a message propagates through
add_cantrip into a well-formed failure envelope on the fresh sheet. -/
theorem C7_witness :
    strict_envelope
      (add_cantrip { status := .failure, message := some "No spell matches Firebolt" }
        emptySheet).1 :=
  C7_amended_envelope_discipline.2.2.2.2.2.2.1
    { status := .failure, message := some "No spell matches Firebolt" } emptySheet
    (by refine ⟨fun h => ⟨by decide, by decide⟩, fun h => by simp at h⟩)

/-- A concrete background record of the bundled reference-data shape. -/
def sageBackground : Background :=
  { name := "Sage",
    abilityScores := ["Constitution", "Intelligence", "Wisdom"],
    originFeat := "Magic Initiate (Wizard)",
    skillProficiencies := ["Arcana", "History"],
    toolProficiency := "Calligrapher\x27s Supplies",
    equipment := "Quarterstaff, Calligrapher\x27s Supplies, Book, Parchment, Robe, 8 GP" }

/-- C8 counterexample: the claim covers list_backgrounds, but an ability filter
value outside the fixed ability enumeration does not fail there — the call scans
the records and answers success (here with an empty result). -/
theorem C8_counterexample_list_backgrounds_never_fails :
    ¬ ("bogus" ∈ abilityValues) ∧
    (list_backgrounds [sageBackground] (some "bogus") none).status = .success ∧
    (list_backgrounds [sageBackground] (some "bogus") none).result = some [] := by
  refine ⟨by decide, by decide, by decide⟩

/-- C8 amended: for list_spells (school and class filters) and list_races (size and
ability filters), a filter value outside its fixed enumeration yields a failure
whose envelope is the same whatever the record data — no record is consulted — and
whose message enumerates the legal values; list_backgrounds, however, performs no
enumeration validation and always answers success after scanning with the filters
applied literally. -/
theorem C8_amended_eager_filter_validation :
    (∀ spells c sc ml rit, ¬ sc ∈ schoolValues →
      list_spells spells c (some sc) ml rit =
        { status := .failure,
          message := some ("Invalid school \x27" ++ sc ++ "\x27. Must be one of: "
            ++ String.intercalate ", " schoolValues) }) ∧
    (∀ spells c sc ml rit, ¬ c ∈ classValues → (∀ v, sc = some v → v ∈ schoolValues) →
      list_spells spells (some c) sc ml rit =
        { status := .failure,
          message := some ("Invalid class \x27" ++ c ++ "\x27. Must be one of: "
            ++ String.intercalate ", " classValues) }) ∧
    (∀ races sz hd ab, ¬ sz ∈ sizeValues →
      list_races races (some sz) hd ab =
        { status := .failure,
          message := some ("Invalid size \x27" ++ sz ++ "\x27. Must be one of: "
            ++ String.intercalate ", " sizeValues) }) ∧
    (∀ races sz hd ab, ¬ ab ∈ abilityValues → (∀ v, sz = some v → v ∈ sizeValues) →
      list_races races sz hd (some ab) =
        { status := .failure,
          message := some ("Invalid ability \x27" ++ ab ++ "\x27. Must be one of: "
            ++ String.intercalate ", " abilityValues) }) ∧
    (∀ bgs ab sk, (list_backgrounds bgs ab sk).status = .success) := by
  refine ⟨?_, ?_, ?_, ?_, ?_⟩
  · intro spells c sc ml rit hsc
    simp only [list_spells]
    rw [if_pos]
    simpa [List.elem_iff] using hsc
  · intro spells c sc ml rit hc hsc
    have hscan : list_spells_scan spells (some c) sc ml rit =
        { status := .failure,
          message := some ("Invalid class \x27" ++ c ++ "\x27. Must be one of: "
            ++ String.intercalate ", " classValues) } := by
      simp only [list_spells_scan]
      rw [if_pos]
      simpa [List.elem_iff] using hc
    cases sc with
    | none =>
      simp only [list_spells]
      exact hscan
    | some v =>
      simp only [list_spells]
      rw [if_neg]
      · exact hscan
      · simpa [List.elem_iff] using hsc v rfl
  · intro races sz hd ab hsz
    simp only [list_races]
    rw [if_pos]
    simpa [List.elem_iff] using hsz
  · intro races sz hd ab hab hsz
    have hscan : list_races_scan races sz hd (some ab) =
        { status := .failure,
          message := some ("Invalid ability \x27" ++ ab ++ "\x27. Must be one of: "
            ++ String.intercalate ", " abilityValues) } := by
      simp only [list_races_scan]
      rw [if_pos]
      simpa [List.elem_iff] using hab
    cases sz with
    | none =>
      simp only [list_races]
      exact hscan
    | some v =>
      simp only [list_races]
      rw [if_neg]
      · exact hscan
      · simpa [List.elem_iff] using hsz v rfl
  · intro bgs ab sk
    rfl

/-- C8 witness: on concrete inputs an unknown school fails identically on the
empty and on a non-empty spell list, with the message listing all eight schools. -/
theorem C8_witness :
    list_spells [] none (some "alchemy") none none =
      { status := .failure,
        message := some ("Invalid school \x27alchemy\x27. Must be one of: "
          ++ String.intercalate ", " schoolValues) } ∧
    list_races [] none none (some "luck") =
      { status := .failure,
        message := some ("Invalid ability \x27luck\x27. Must be one of: "
          ++ String.intercalate ", " abilityValues) } :=
  ⟨C8_amended_eager_filter_validation.1 [] none "alchemy" none none (by decide),
   C8_amended_eager_filter_validation.2.2.2.1 [] none none "luck" (by decide)
     (fun v hv => by cases hv)⟩

/-- set_class_wizard never writes the size field. -/
lemma size_set_class_wizard (skills : List String) (s : CharacterSheet) :
    (set_class_wizard skills s).2.size = s.size := by
  unfold set_class_wizard
  repeat' split
  all_goals rfl

/-- configure_spellcasting never writes the size field. -/
lemma size_configure_spellcasting (s : CharacterSheet) :
    (configure_spellcasting s).2.size = s.size := by
  unfold configure_spellcasting
  split
  all_goals rfl

/-- add_cantrip never writes the size field. -/
lemma size_add_cantrip (res : ToolResponse Spell) (s : CharacterSheet) :
    (add_cantrip res s).2.size = s.size := by
  unfold add_cantrip
  repeat' split
  all_goals rfl

/-- add_spellbook_spell never writes the size field. -/
lemma size_add_spellbook_spell (res : ToolResponse Spell) (s : CharacterSheet) :
    (add_spellbook_spell res s).2.size = s.size := by
  unfold add_spellbook_spell
  repeat' split
  all_goals rfl

/-- prepare_spell never writes the size field. -/
lemma size_prepare_spell (n : String) (s : CharacterSheet) :
    (prepare_spell n s).2.size = s.size := by
  unfold prepare_spell
  repeat' split
  all_goals rfl

/-- Every mutator except set_race leaves the size field untouched, and a set_race
call whose size argument lies in the size enumeration keeps the invariant. -/
lemma applyCall_preserves_sizeOK (call : MutCall) (sheet : CharacterSheet)
    (hguard : sizeGuarded call) (hok : sizeOK sheet) : sizeOK (applyCall call sheet) := by
  cases call with
  | nameCall n => exact hok
  | raceCall rn sz sp dv tr =>
    have hmem : sz = "small" ∨ sz = "medium" := by
      simpa [sizeGuarded, sizeValues] using hguard
    rcases hmem with h | h
    · exact Or.inr (Or.inl (congrArg some h))
    · exact Or.inr (Or.inr (congrArg some h))
  | abilitiesCall a b c d e f => exact hok
  | classCall skills =>
    simpa [sizeOK, applyCall, size_set_class_wizard] using hok
  | backgroundCall bg skills tool feat bonuses => exact hok
  | spellcastingCall =>
    simpa [sizeOK, applyCall, size_configure_spellcasting] using hok
  | cantripCall res =>
    simpa [sizeOK, applyCall, size_add_cantrip] using hok
  | spellbookCall res =>
    simpa [sizeOK, applyCall, size_add_spellbook_spell] using hok
  | prepareCall n =>
    simpa [sizeOK, applyCall, size_prepare_spell] using hok
  | derivedCall => exact hok

/-- C9 counterexample: the mutators never validate the size argument, so the claim
fails on the one-call sequence set_race("Ogre", "huge", ...): the call succeeds and
the persisted sheet carries a size outside the small/medium enumeration. -/
theorem C9_counterexample_set_race_accepts_any_size :
    (set_race "Ogre" "huge" 30 none [] emptySheet).1.status = .success ∧
    (applyCall (.raceCall "Ogre" "huge" 30 none []) emptySheet).size = some "huge" ∧
    ¬ sizeOK (applyCall (.raceCall "Ogre" "huge" 30 none []) emptySheet) := by
  refine ⟨by decide, by decide, by decide⟩

/-- C9 amended: the code never constrains the size argument, so the invariant
holds exactly for guarded call sequences: for every sequence of public mutator
calls whose set_race calls all pass a size in the small/medium enumeration, the
sheet reached from the empty sheet has its size either unset or small or medium. -/
theorem C9_amended_size_invariant_under_guarded_calls :
    ∀ calls : List MutCall, (∀ call ∈ calls, sizeGuarded call) →
      sizeOK (calls.foldl (fun sheet call => applyCall call sheet) emptySheet) := by
  have general : ∀ (calls : List MutCall) (sheet : CharacterSheet), sizeOK sheet →
      (∀ call ∈ calls, sizeGuarded call) →
      sizeOK (calls.foldl (fun sheet call => applyCall call sheet) sheet) := by
    intro calls
    induction calls with
    | nil => intro sheet hok _; exact hok
    | cons call rest ih =>
      intro sheet hok hguard
      exact ih (applyCall call sheet)
        (applyCall_preserves_sizeOK call sheet (hguard call (by simp)) hok)
        (fun c hc => hguard c (by simp [hc]))
  intro calls hguard
  exact general calls emptySheet (Or.inl rfl) hguard

/-- C9 witness: a concrete guarded sequence — name, a small-size race, scores and
class — lands on a sheet whose size is the small value. -/
theorem C9_witness :
    sizeOK (([MutCall.nameCall "Fizban",
              MutCall.raceCall "Gnome" "small" 25 (some 60) ["Gnomish Cunning"],
              MutCall.abilitiesCall 8 14 13 15 12 10,
              MutCall.classCall ["Arcana", "History"]].foldl
      (fun sheet call => applyCall call sheet) emptySheet)) :=
  C9_amended_size_invariant_under_guarded_calls
    [MutCall.nameCall "Fizban",
     MutCall.raceCall "Gnome" "small" 25 (some 60) ["Gnomish Cunning"],
     MutCall.abilitiesCall 8 14 13 15 12 10,
     MutCall.classCall ["Arcana", "History"]]
    (by intro call hc; fin_cases hc <;> simp [sizeGuarded, sizeValues])

/-- The concrete sheet of the C10 scenario: spellcasting configured with room for
three prepared spells and a spellbook holding exactly the name Magic Missile. -/
def caseSheet : CharacterSheet :=
  { spellbook := ["Magic Missile"],
    spellcasting_ability := some "Intelligence",
    max_prepared_spells := some 3 }

/-- C10: prepare_spell resolves nothing fuzzily — a name absent from the spellbook
list (compared case-sensitively) always yields the not-in-spellbook failure with
the sheet unchanged, success implies exact membership, and on a configured sheet
with spare capacity the lowercase variant of a spellbook entry still fails while
the exact name succeeds. -/
theorem C10_prepare_spell_exact_membership_only :
    (∀ (s : CharacterSheet) n, ¬ n ∈ s.spellbook →
      prepare_spell n s =
        ({ status := .failure,
           message := some ("\x27" ++ n ++ "\x27 is not in your spellbook") }, s)) ∧
    (∀ (s : CharacterSheet) n, (prepare_spell n s).1.status = .success →
      n ∈ s.spellbook) ∧
    ((prepare_spell "magic missile" caseSheet).1.status = .failure ∧
     (prepare_spell "magic missile" caseSheet).2 = caseSheet ∧
     (prepare_spell "Magic Missile" caseSheet).1.status = .success) := by
  refine ⟨?_, ?_, by decide, by decide, by decide⟩
  · intro s n hn
    unfold prepare_spell
    rw [if_pos]
    simpa [List.elem_iff] using hn
  · intro s n
    unfold prepare_spell
    by_cases hn : n ∈ s.spellbook
    · intro _
      exact hn
    · rw [if_pos (by simpa [List.elem_iff] using hn)]
      intro h
      exact absurd h (by simp)

/-- C10 witness: the case variant of the only spellbook entry is rejected verbatim
on the configured sheet. -/
theorem C10_witness :
    prepare_spell "magic missile" caseSheet =
      ({ status := .failure,
         message := some ("\x27magic missile\x27 is not in your spellbook") },
       caseSheet) :=
  C10_prepare_spell_exact_membership_only.1 caseSheet "magic missile" (by decide)

end WizardWizard
